import Mathlib

/-!
Verification of the gpu-fan-controller program (src/src/main.rs).

The Rust program is shallowly embedded here:

* `calculate_fan_speed` mirrors `FanController::calculate_fan_speed` with the
  `u32` / `u8` arithmetic made explicit (`% 2^32`, `% 2^8` at the points where
  the machine integers could wrap or truncate).
* The stateful device layer (`CachedFiles`, the `read_u8_from_enable_file` /
  `write_u8_to_*` helpers, `set_pwm_mode`, `set_fan_speed`, `update`,
  `cleanup`, `FanController::new`) is embedded as explicit state passing over
  a filesystem model `Fs` together with an event trace recording every open
  attempt and every completed device write.  Per-call I/O success is modelled
  by boolean fields of `Fs` (an open of a control file succeeds or not; the
  seek/write/flush or seek/read group on a file succeeds or not), and the
  contents of the two sysfs control files are modelled as strings; a completed
  write to such an attribute file replaces its contents with the decimal
  rendering of the written byte, which is the sysfs store-callback semantics
  the program relies on.
* The control loop of `main` is embedded as `runTicks` (one `update` per
  reading delivered while the shutdown flag is unobserved) followed by the
  single `cleanup` that Rust's `Drop` impl runs when `main` returns
  (`runLoop`).
* The sleep-interval computation of `main`
  (`(args.interval * 1_000_000_000.0) as u64`) is embedded over `ℚ` as
  `sleep_nanos`; the `as u64` float-to-integer cast truncates toward zero and
  saturates at 0 for negative values, which for nonnegative arguments is the
  floor, taken with `Int.toNat`.
-/

/-- `FanController::calculate_fan_speed` (main.rs lines 114-121).
Rust: `match temp { 0..=25 => 77, 26..=59 => 77 + ((temp - 25) * 5).min(178) as u8, _ => 255 }`
with `temp : u32` and result `u8`.  The subtraction cannot underflow in its
branch; the multiplication is `u32` (reduced `% 2^32`), the cast of the
clamped value to `u8` reduces `% 2^8`, and the final `u8` addition reduces
`% 2^8`. -/
def calculate_fan_speed (temp : Nat) : Nat :=
  if temp ≤ 25 then 77
  else if temp ≤ 59 then (77 + min ((temp - 25) * 5 % 4294967296) 178 % 256) % 256
  else 255

/-- The pure mathematical staircase the spec describes, for comparison. -/
def duty_for_spec (temp : Nat) : Nat :=
  if temp ≤ 25 then 77
  else if temp ≤ 59 then 77 + 5 * (temp - 25)
  else 255

/-- One observable device-level action: an attempt to open one of the two
control files, a read of the enable file, or a completed write of a byte
value to one of the two control files. -/
inductive Event where
  | openPwm : Event
  | openEnable : Event
  | readEnable : Event
  | writePwm : Nat → Event
  | writeEnable : Nat → Event
deriving DecidableEq, Repr

/-- The filesystem / device environment seen by the controller.  The four
boolean fields say whether the corresponding group of syscalls succeeds
(`open` of each file; the seek/write/flush resp. seek/read group on each
file); the two strings are the current contents of the control files. -/
structure Fs where
  enableExists : Bool
  pwmOpenOk : Bool
  enableOpenOk : Bool
  pwmIoOk : Bool
  enableIoOk : Bool
  pwmContent : String
  enableContent : String
deriving DecidableEq, Repr

/-- `CachedFiles` (main.rs lines 45-75): which of the two lazily opened
handles is currently cached (`Some`). -/
structure CachedFiles where
  pwm_file : Bool
  enable_file : Bool
deriving DecidableEq, Repr

/-- `CachedFiles::new`. -/
def CachedFiles.new : CachedFiles := ⟨false, false⟩

/-- `CachedFiles::get_or_open_pwm` (main.rs lines 58-63): if no handle is
cached, attempt the open and cache it on success; return whether a handle is
now available. -/
def CachedFiles.get_or_open_pwm (c : CachedFiles) (fs : Fs) :
    Bool × CachedFiles × List Event :=
  if c.pwm_file then (true, c, [])
  else (fs.pwmOpenOk, { c with pwm_file := fs.pwmOpenOk }, [Event.openPwm])

/-- `CachedFiles::get_or_open_enable` (main.rs lines 65-74). -/
def CachedFiles.get_or_open_enable (c : CachedFiles) (fs : Fs) :
    Bool × CachedFiles × List Event :=
  if c.enable_file then (true, c, [])
  else (fs.enableOpenOk, { c with enable_file := fs.enableOpenOk }, [Event.openEnable])

/-- Strip leading and trailing whitespace from a character list (the effect
of Rust's `str::trim` on the file contents). -/
def trimWs (l : List Char) : List Char :=
  ((l.dropWhile Char.isWhitespace).reverse.dropWhile Char.isWhitespace).reverse

/-- Parse a nonempty all-digit character list as a decimal number. -/
def parseDec (l : List Char) : Option Nat :=
  if l.isEmpty then none
  else if l.all Char.isDigit then
    some (l.foldl (fun acc c => acc * 10 + (c.toNat - 48)) 0)
  else none

/-- Rust's `s.trim().parse::<u8>()`: trim whitespace, decode an unsigned
decimal, reject values above `u8::MAX`.  (Rust's parse also accepts a
leading `+`, which never occurs in these device files.) -/
def parse_u8 (s : String) : Option Nat :=
  match parseDec (trimWs s.data) with
  | some n => if n ≤ 255 then some n else none
  | none => none

/-- `FanController` state (main.rs lines 77-85): the two paths, the
last-applied (temperature, speed) pair, and the cached handles.  The
scratch `FileBuffer` is not part of the observable state. -/
structure FanController where
  pwm_path : String
  enable_path : String
  last_temp : Nat
  last_speed : Nat
  files : CachedFiles
deriving DecidableEq, Repr

/-- `FileBuffer::make_enable_path` (main.rs lines 38-42): clear the buffer,
push the pwm path, push the `"_enable"` suffix. -/
def make_enable_path (pwm_path : String) : String :=
  pwm_path ++ "_enable"

/-- `FanController::read_u8_from_enable_file` (main.rs lines 133-140):
get-or-open the enable handle, seek to start, read to string, trim and
parse; any failure yields `none`. -/
def FanController.read_u8_from_enable_file (ctrl : FanController) (fs : Fs) :
    Option Nat × FanController × List Event :=
  match ctrl.files.get_or_open_enable fs with
  | (ok, files', ev) =>
    let ctrl' := { ctrl with files := files' }
    if ok then
      if fs.enableIoOk then
        (parse_u8 fs.enableContent, ctrl', ev ++ [Event.readEnable])
      else (none, ctrl', ev ++ [Event.readEnable])
    else (none, ctrl', ev)

/-- `FanController::write_u8_to_pwm_file` (main.rs lines 142-151):
get-or-open the pwm handle; with a handle, seek to start, write the decimal
string, flush; report success. -/
def FanController.write_u8_to_pwm_file (ctrl : FanController) (fs : Fs) (val : Nat) :
    Bool × FanController × Fs × List Event :=
  match ctrl.files.get_or_open_pwm fs with
  | (ok, files', ev) =>
    let ctrl' := { ctrl with files := files' }
    if ok then
      if fs.pwmIoOk then
        (true, ctrl', { fs with pwmContent := toString val }, ev ++ [Event.writePwm val])
      else (false, ctrl', fs, ev)
    else (false, ctrl', fs, ev)

/-- `FanController::write_u8_to_enable_file` (main.rs lines 153-162). -/
def FanController.write_u8_to_enable_file (ctrl : FanController) (fs : Fs) (val : Nat) :
    Bool × FanController × Fs × List Event :=
  match ctrl.files.get_or_open_enable fs with
  | (ok, files', ev) =>
    let ctrl' := { ctrl with files := files' }
    if ok then
      if fs.enableIoOk then
        (true, ctrl', { fs with enableContent := toString val }, ev ++ [Event.writeEnable val])
      else (false, ctrl', fs, ev)
    else (false, ctrl', fs, ev)

/-- `FanController::set_pwm_mode` (main.rs lines 164-172): read the current
mode; on read failure return `false`; if it differs from the target write
the target, otherwise succeed without writing. -/
def FanController.set_pwm_mode (ctrl : FanController) (fs : Fs) (mode : Nat) :
    Bool × FanController × Fs × List Event :=
  match ctrl.read_u8_from_enable_file fs with
  | (some current, ctrl', ev) =>
    if current ≠ mode then
      match ctrl'.write_u8_to_enable_file fs mode with
      | (b, ctrl'', fs', ev') => (b, ctrl'', fs', ev ++ ev')
    else (true, ctrl', fs, ev)
  | (none, ctrl', ev) => (false, ctrl', fs, ev)

/-- `FanController::set_fan_speed` (main.rs lines 174-176). -/
def FanController.set_fan_speed (ctrl : FanController) (fs : Fs) (speed : Nat) :
    Bool × FanController × Fs × List Event :=
  ctrl.write_u8_to_pwm_file fs speed

/-- `FanController::update` (main.rs lines 178-194): with a reading, compute
the target speed and write it only when the (temperature, speed) pair
changed, committing the pair only on write success; without a reading, fall
back to duty 77 unless already applied, committing only the speed on write
success. -/
def FanController.update (ctrl : FanController) (fs : Fs) (reading : Option Nat) :
    FanController × Fs × List Event :=
  match reading with
  | some temp =>
    let speed := calculate_fan_speed temp
    if temp ≠ ctrl.last_temp ∨ speed ≠ ctrl.last_speed then
      match ctrl.set_fan_speed fs speed with
      | (true, ctrl', fs', ev) =>
        ({ ctrl' with last_temp := temp, last_speed := speed }, fs', ev)
      | (false, ctrl', fs', ev) => (ctrl', fs', ev)
    else (ctrl, fs, [])
  | none =>
    if ctrl.last_speed ≠ 77 then
      match ctrl.set_fan_speed fs 77 with
      | (true, ctrl', fs', ev) => ({ ctrl' with last_speed := 77 }, fs', ev)
      | (false, ctrl', fs', ev) => (ctrl', fs', ev)
    else (ctrl, fs, [])

/-- `FanController::cleanup` (main.rs lines 196-200): best-effort write of
duty 77 followed by a best-effort switch to automatic mode (enable 2). -/
def FanController.cleanup (ctrl : FanController) (fs : Fs) :
    FanController × Fs × List Event :=
  match ctrl.set_fan_speed fs 77 with
  | (_, ctrl', fs', ev) =>
    match ctrl'.set_pwm_mode fs' 2 with
    | (_, ctrl'', fs'', ev') => (ctrl'', fs'', ev ++ ev')

/-- The controller state built by `FanController::new` before the mode is
confirmed (last pair (0,0), no cached handles, enable path derived from the
pwm path). -/
def initController (pwm_path : String) : FanController :=
  { pwm_path := pwm_path
    enable_path := make_enable_path pwm_path
    last_temp := 0
    last_speed := 0
    files := CachedFiles.new }

/-- `FanController::new` (main.rs lines 88-112): derive the enable path and
check its existence; build the controller; confirm manual mode with
`set_pwm_mode(1)`; yield `none` when either step fails. -/
def FanController.new (pwm_path : String) (fs : Fs) :
    Option FanController × Fs × List Event :=
  if fs.enableExists then
    match (initController pwm_path).set_pwm_mode fs 1 with
    | (true, ctrl', fs', ev) => (some ctrl', fs', ev)
    | (false, _, fs', ev) => (none, fs', ev)
  else (none, fs, [])

/-- The poll loop of `main` (lines 269-276): one `update` per iteration, for
as long as the shutdown flag stays set; `readings` lists the sensor results
of those iterations. -/
def runTicks (ctrl : FanController) (fs : Fs) :
    List (Option Nat) → FanController × Fs × List Event
  | [] => (ctrl, fs, [])
  | r :: rs =>
    match ctrl.update fs r with
    | (ctrl', fs', ev) =>
      match runTicks ctrl' fs' rs with
      | (ctrl'', fs'', ev') => (ctrl'', fs'', ev ++ ev')

/-- A full run of `main` after construction: the poll loop followed by the
one `cleanup` that the `Drop` impl performs when `main` returns (whether the
loop ended by observing the shutdown flag or not). -/
def runLoop (ctrl : FanController) (fs : Fs) (readings : List (Option Nat)) :
    FanController × Fs × List Event :=
  match runTicks ctrl fs readings with
  | (ctrl', fs', ev) =>
    match ctrl'.cleanup fs' with
    | (ctrl'', fs'', ev') => (ctrl'', fs'', ev ++ ev')

/-- The duty values written to the pwm file, in order, in a trace. -/
def pwmWrites (tr : List Event) : List Nat :=
  tr.filterMap fun e =>
    match e with
    | Event.writePwm v => some v
    | _ => none

/-- The values written to the enable file, in order, in a trace. -/
def enableWrites (tr : List Event) : List Nat :=
  tr.filterMap fun e =>
    match e with
    | Event.writeEnable v => some v
    | _ => none

/-- The number of open attempts on the pwm file in a trace. -/
def pwmOpenAttempts (tr : List Event) : Nat :=
  tr.countP fun e => e = Event.openPwm

/-- The number of open attempts on the enable file in a trace. -/
def enableOpenAttempts (tr : List Event) : Nat :=
  tr.countP fun e => e = Event.openEnable

/-- The sleep computation of `main` (lines 264-265):
`(interval * 1_000_000_000.0) as u64`, then `Duration::from_nanos`.  The
`as u64` cast truncates toward zero and saturates at 0 below zero, which is
`Int.toNat` of the floor for every value that is not strictly between -1
and 0.  Embedded over `ℚ`; for a dyadic interval small enough (such as
1/16) the `f64` computation is exact, so the model agrees with the float
arithmetic there. -/
def sleep_nanos (interval : ℚ) : ℕ :=
  (⌊interval * 1000000000⌋).toNat

/-- Both control-file writes and both opens in a trace, in order. -/
def deviceWrites (tr : List Event) : List Event :=
  tr.filter fun e =>
    match e with
    | Event.writePwm _ => true
    | Event.writeEnable _ => true
    | _ => false

/-- An environment where the device is present but both control-file opens
fail (e.g. a permissions problem), used as concrete counterexample input. -/
def fsOpenFails : Fs :=
  { enableExists := true
    pwmOpenOk := false
    enableOpenOk := false
    pwmIoOk := true
    enableIoOk := true
    pwmContent := "0"
    enableContent := "2" }

/-- A healthy environment whose device is already in manual mode (enable
file contains "1"). -/
def fsManual : Fs :=
  { enableExists := true
    pwmOpenOk := true
    enableOpenOk := true
    pwmIoOk := true
    enableIoOk := true
    pwmContent := "0"
    enableContent := "1" }

/-- A healthy environment whose device is in automatic mode (enable file
contains "2"), the state a device is normally found in before start-up. -/
def fsAutomatic : Fs :=
  { fsManual with enableContent := "2" }

/-- Helper: on the middle branch the machine arithmetic collapses to the
staircase formula (the `.min(178)` clamp and the casts are inert there). -/
theorem calculate_fan_speed_mid (t : Nat) (h1 : 26 ≤ t) (h2 : t ≤ 59) :
    calculate_fan_speed t = 77 + 5 * (t - 25) := by
  interval_cases t <;> decide

/-- Helper: above the table the function returns 255. -/
theorem calculate_fan_speed_high (t : Nat) (h : 60 ≤ t) :
    calculate_fan_speed t = 255 := by
  unfold calculate_fan_speed
  rw [if_neg (by omega), if_neg (by omega)]

/-- C1: the speed curve is total with exactly the specified values:
`t ≤ 25 → 77`; `t ≥ 60 → 255`; `26 ≤ t ≤ 59 → 77 + 5*(t-25)`;
`f 26 = 82`; `f 59 = 247`; and each step inside `26..59` adds exactly 5. -/
theorem calculate_fan_speed_curve (t : Nat) (ht : t < 4294967296) :
    (t ≤ 25 → calculate_fan_speed t = 77) ∧
    (60 ≤ t → calculate_fan_speed t = 255) ∧
    (26 ≤ t → t ≤ 59 → calculate_fan_speed t = 77 + 5 * (t - 25)) ∧
    calculate_fan_speed 26 = 82 ∧
    calculate_fan_speed 59 = 247 ∧
    (26 ≤ t → t ≤ 59 → calculate_fan_speed t = calculate_fan_speed (t - 1) + 5) := by
  refine ⟨?_, calculate_fan_speed_high t, calculate_fan_speed_mid t, by decide, by decide, ?_⟩
  · intro h; simp [calculate_fan_speed, h]
  · intro h1 h2
    rw [calculate_fan_speed_mid t h1 h2]
    rcases Nat.eq_or_lt_of_le h1 with h26 | h27
    · rw [← h26]; decide
    · rw [calculate_fan_speed_mid (t - 1) (by omega) (by omega)]; omega

/-- Witness for `calculate_fan_speed_curve` at t = 30. -/
theorem calculate_fan_speed_curve_witness :
    30 < 4294967296 ∧ (26 ≤ 30 → 30 ≤ 59 → calculate_fan_speed 30 = 77 + 5 * (30 - 25)) :=
  ⟨by decide, (calculate_fan_speed_curve 30 (by decide)).2.2.1⟩

/-- C10: for every u32 input the arithmetic neither wraps nor truncates — the
modelled machine arithmetic equals the pure staircase value everywhere, and
the result always lies in `77..=255`. -/
theorem calculate_fan_speed_no_overflow (t : Nat) (ht : t < 4294967296) :
    calculate_fan_speed t = duty_for_spec t ∧
    77 ≤ calculate_fan_speed t ∧ calculate_fan_speed t ≤ 255 := by
  rcases Nat.lt_or_ge t 26 with h | h
  · have h' : t ≤ 25 := by omega
    constructor
    · simp [calculate_fan_speed, duty_for_spec, h']
    · simp [calculate_fan_speed, h']
  · rcases Nat.lt_or_ge t 60 with h2 | h2
    · have h2' : t ≤ 59 := by omega
      rw [calculate_fan_speed_mid t h h2']
      constructor
      · simp only [duty_for_spec]
        rw [if_neg (by omega), if_pos h2']
      · omega
    · rw [calculate_fan_speed_high t h2]
      constructor
      · simp only [duty_for_spec]
        rw [if_neg (by omega), if_neg (by omega)]
      · omega

/-- Witness for `calculate_fan_speed_no_overflow` at t = 59. -/
theorem calculate_fan_speed_no_overflow_witness :
    59 < 4294967296 ∧ calculate_fan_speed 59 = duty_for_spec 59 :=
  ⟨by decide, (calculate_fan_speed_no_overflow 59 (by decide)).1⟩

/-- Characterization of `read_u8_from_enable_file` as one conditional. -/
theorem read_enable_eq (ctrl : FanController) (fs : Fs) :
    ctrl.read_u8_from_enable_file fs =
      ((if (ctrl.files.enable_file || fs.enableOpenOk) && fs.enableIoOk then
          parse_u8 fs.enableContent else none),
       { ctrl with files := { ctrl.files with
           enable_file := ctrl.files.enable_file || fs.enableOpenOk } },
       if ctrl.files.enable_file then [Event.readEnable]
       else if fs.enableOpenOk then [Event.openEnable, Event.readEnable]
       else [Event.openEnable]) := by
  obtain ⟨pp, ep, lt, ls, ⟨cp, ce⟩⟩ := ctrl
  cases ce <;> cases hr : fs.enableOpenOk <;> cases hio : fs.enableIoOk <;>
    simp [FanController.read_u8_from_enable_file, CachedFiles.get_or_open_enable, hr, hio]

/-- Characterization of `write_u8_to_enable_file` as one conditional. -/
theorem write_enable_eq (ctrl : FanController) (fs : Fs) (val : Nat) :
    ctrl.write_u8_to_enable_file fs val =
      (((ctrl.files.enable_file || fs.enableOpenOk) && fs.enableIoOk),
       { ctrl with files := { ctrl.files with
           enable_file := ctrl.files.enable_file || fs.enableOpenOk } },
       (if (ctrl.files.enable_file || fs.enableOpenOk) && fs.enableIoOk then
          { fs with enableContent := toString val } else fs),
       (if ctrl.files.enable_file then [] else [Event.openEnable]) ++
         (if (ctrl.files.enable_file || fs.enableOpenOk) && fs.enableIoOk then
            [Event.writeEnable val] else [])) := by
  obtain ⟨pp, ep, lt, ls, ⟨cp, ce⟩⟩ := ctrl
  cases ce <;> cases hr : fs.enableOpenOk <;> cases hio : fs.enableIoOk <;>
    simp [FanController.write_u8_to_enable_file, CachedFiles.get_or_open_enable, hr, hio]

/-- Characterization of `write_u8_to_pwm_file` as one conditional. -/
theorem write_pwm_eq (ctrl : FanController) (fs : Fs) (val : Nat) :
    ctrl.write_u8_to_pwm_file fs val =
      (((ctrl.files.pwm_file || fs.pwmOpenOk) && fs.pwmIoOk),
       { ctrl with files := { ctrl.files with
           pwm_file := ctrl.files.pwm_file || fs.pwmOpenOk } },
       (if (ctrl.files.pwm_file || fs.pwmOpenOk) && fs.pwmIoOk then
          { fs with pwmContent := toString val } else fs),
       (if ctrl.files.pwm_file then [] else [Event.openPwm]) ++
         (if (ctrl.files.pwm_file || fs.pwmOpenOk) && fs.pwmIoOk then
            [Event.writePwm val] else [])) := by
  obtain ⟨pp, ep, lt, ls, ⟨cp, ce⟩⟩ := ctrl
  cases cp <;> cases hr : fs.pwmOpenOk <;> cases hio : fs.pwmIoOk <;>
    simp [FanController.write_u8_to_pwm_file, CachedFiles.get_or_open_pwm, hr, hio]

/-- C4 counterexample: after a failed initial open, a second call to
`get_or_open_pwm` attempts the open AGAIN — two calls make two underlying
open attempts, refuting "at most one underlying open attempt is made per
file" (and likewise "without ever attempting the open again"). -/
theorem get_or_open_pwm_two_attempts :
    (CachedFiles.new.get_or_open_pwm fsOpenFails).1 = false ∧
    ((CachedFiles.new.get_or_open_pwm fsOpenFails).2.1.get_or_open_pwm fsOpenFails).1 = false ∧
    pwmOpenAttempts ((CachedFiles.new.get_or_open_pwm fsOpenFails).2.2 ++
      ((CachedFiles.new.get_or_open_pwm fsOpenFails).2.1.get_or_open_pwm fsOpenFails).2.2) = 2 := by
  decide

/-- C4 amended: a handle is opened at most once SUCCESSFULLY — once a handle
is cached no further open attempt is ever made, and a call that finds the
slot cached (in particular any call after a successful one) performs no open
attempt; a failed open leaves the slot empty and reports failure, but the
next call retries the open rather than failing without a syscall. -/
theorem get_or_open_cached_no_reopen (c : CachedFiles) (fs fs' : Fs) :
    (c.pwm_file = true → c.get_or_open_pwm fs = (true, c, [])) ∧
    ((c.get_or_open_pwm fs).1 = true →
      (c.get_or_open_pwm fs).2.1.get_or_open_pwm fs' = (true, (c.get_or_open_pwm fs).2.1, [])) ∧
    (c.pwm_file = false → fs.pwmOpenOk = false →
      c.get_or_open_pwm fs = (false, c, [Event.openPwm])) ∧
    (c.enable_file = true → c.get_or_open_enable fs = (true, c, [])) ∧
    ((c.get_or_open_enable fs).1 = true →
      (c.get_or_open_enable fs).2.1.get_or_open_enable fs' =
        (true, (c.get_or_open_enable fs).2.1, [])) ∧
    (c.enable_file = false → fs.enableOpenOk = false →
      c.get_or_open_enable fs = (false, c, [Event.openEnable])) := by
  obtain ⟨cp, ce⟩ := c
  refine ⟨?_, ?_, ?_, ?_, ?_, ?_⟩ <;>
    cases cp <;> cases ce <;>
      cases hp : fs.pwmOpenOk <;> cases he : fs.enableOpenOk <;>
        simp [CachedFiles.get_or_open_pwm, CachedFiles.get_or_open_enable, hp, he]

/-- Witness for `get_or_open_cached_no_reopen`: a cached pwm handle is
returned without an open attempt. -/
theorem get_or_open_cached_no_reopen_witness :
    CachedFiles.get_or_open_pwm ⟨true, true⟩ fsOpenFails = (true, ⟨true, true⟩, []) :=
  (get_or_open_cached_no_reopen ⟨true, true⟩ fsOpenFails fsOpenFails).1 rfl

/-- Characterization of `set_pwm_mode` as one conditional: the call fails
exactly when the read does; it writes exactly when the read produced a
value different from the target, and such a write always succeeds (the
successful read already proves the handle and the file I/O work). -/
theorem set_pwm_mode_eq (ctrl : FanController) (fs : Fs) (m : Nat) :
    ctrl.set_pwm_mode fs m =
      (match (if (ctrl.files.enable_file || fs.enableOpenOk) && fs.enableIoOk then
                parse_u8 fs.enableContent else none) with
       | none =>
         (false,
          { ctrl with files := { ctrl.files with
              enable_file := ctrl.files.enable_file || fs.enableOpenOk } },
          fs,
          if ctrl.files.enable_file then [Event.readEnable]
          else if fs.enableOpenOk then [Event.openEnable, Event.readEnable]
          else [Event.openEnable])
       | some current =>
         if current = m then
           (true,
            { ctrl with files := { ctrl.files with
                enable_file := ctrl.files.enable_file || fs.enableOpenOk } },
            fs,
            if ctrl.files.enable_file then [Event.readEnable]
            else [Event.openEnable, Event.readEnable])
         else
           (true,
            { ctrl with files := { ctrl.files with
                enable_file := ctrl.files.enable_file || fs.enableOpenOk } },
            { fs with enableContent := toString m },
            (if ctrl.files.enable_file then [Event.readEnable]
             else [Event.openEnable, Event.readEnable]) ++ [Event.writeEnable m])) := by
  obtain ⟨pp, ep, lt, ls, ⟨cp, ce⟩⟩ := ctrl
  cases ce <;> cases ho : fs.enableOpenOk <;> cases hio : fs.enableIoOk <;>
    cases hp : parse_u8 fs.enableContent <;>
      simp [FanController.set_pwm_mode, read_enable_eq, write_enable_eq, ho, hio, hp]

/-- Characterization of `update` as one conditional: the pair is committed
exactly when a write was needed and succeeded; the enable file is never
touched. -/
theorem update_eq (ctrl : FanController) (fs : Fs) (reading : Option Nat) :
    ctrl.update fs reading =
      (match reading with
       | some temp =>
         if temp ≠ ctrl.last_temp ∨ calculate_fan_speed temp ≠ ctrl.last_speed then
           if (ctrl.files.pwm_file || fs.pwmOpenOk) && fs.pwmIoOk then
             ({ ctrl with
                  files := { ctrl.files with
                    pwm_file := ctrl.files.pwm_file || fs.pwmOpenOk },
                  last_temp := temp, last_speed := calculate_fan_speed temp },
              { fs with pwmContent := toString (calculate_fan_speed temp) },
              (if ctrl.files.pwm_file then [] else [Event.openPwm]) ++
                [Event.writePwm (calculate_fan_speed temp)])
           else
             ({ ctrl with files := { ctrl.files with
                  pwm_file := ctrl.files.pwm_file || fs.pwmOpenOk } },
              fs,
              if ctrl.files.pwm_file then [] else [Event.openPwm])
         else (ctrl, fs, [])
       | none =>
         if ctrl.last_speed ≠ 77 then
           if (ctrl.files.pwm_file || fs.pwmOpenOk) && fs.pwmIoOk then
             ({ ctrl with
                  files := { ctrl.files with
                    pwm_file := ctrl.files.pwm_file || fs.pwmOpenOk },
                  last_speed := 77 },
              { fs with pwmContent := toString 77 },
              (if ctrl.files.pwm_file then [] else [Event.openPwm]) ++
                [Event.writePwm 77])
           else
             ({ ctrl with files := { ctrl.files with
                  pwm_file := ctrl.files.pwm_file || fs.pwmOpenOk } },
              fs,
              if ctrl.files.pwm_file then [] else [Event.openPwm])
         else (ctrl, fs, [])) := by
  obtain ⟨pp, ep, lt, ls, ⟨cp, ce⟩⟩ := ctrl
  cases reading with
  | none =>
    by_cases hs : ls ≠ 77 <;>
      cases cp <;> cases hp : fs.pwmOpenOk <;> cases hio : fs.pwmIoOk <;>
        simp [FanController.update, FanController.set_fan_speed, write_pwm_eq,
          hp, hio, hs]
  | some temp =>
    by_cases hc : temp ≠ lt ∨ calculate_fan_speed temp ≠ ls <;>
      cases cp <;> cases hp : fs.pwmOpenOk <;> cases hio : fs.pwmIoOk <;>
        simp [FanController.update, FanController.set_fan_speed, write_pwm_eq,
          hp, hio, hc]

/-- `set_pwm_mode` when the device already reports the target mode: success,
no write, file state untouched. -/
theorem set_pwm_mode_same (c : FanController) (f : Fs) (m : Nat)
    (h1 : (c.files.enable_file || f.enableOpenOk) = true)
    (h2 : f.enableIoOk = true)
    (h3 : parse_u8 f.enableContent = some m) :
    c.set_pwm_mode f m =
      (true, { c with files := { c.files with enable_file := true } }, f,
       if c.files.enable_file then [Event.readEnable]
       else [Event.openEnable, Event.readEnable]) := by
  rw [set_pwm_mode_eq]
  simp [h1, h2, h3]

/-- `set_pwm_mode` when the device reports a different mode: the successful
read proves the handle and I/O work, so the write happens and succeeds. -/
theorem set_pwm_mode_diff (c : FanController) (f : Fs) (m v : Nat)
    (h1 : (c.files.enable_file || f.enableOpenOk) = true)
    (h2 : f.enableIoOk = true)
    (h3 : parse_u8 f.enableContent = some v) (hv : v ≠ m) :
    c.set_pwm_mode f m =
      (true, { c with files := { c.files with enable_file := true } },
       { f with enableContent := toString m },
       (if c.files.enable_file then [Event.readEnable]
        else [Event.openEnable, Event.readEnable]) ++ [Event.writeEnable m]) := by
  rw [set_pwm_mode_eq]
  simp [h1, h2, h3, hv]

/-- `set_pwm_mode` when the read fails (no handle or broken I/O): failure,
no write, file state untouched. -/
theorem set_pwm_mode_fail (c : FanController) (f : Fs) (m : Nat)
    (h : ((c.files.enable_file || f.enableOpenOk) && f.enableIoOk) = false ∨
         parse_u8 f.enableContent = none) :
    (c.set_pwm_mode f m).1 = false ∧ (c.set_pwm_mode f m).2.2.1 = f ∧
    enableWrites (c.set_pwm_mode f m).2.2.2 = [] := by
  rw [set_pwm_mode_eq]
  rcases h with h | h
  · simp only [h]
    cases hb : c.files.enable_file <;> cases ho : f.enableOpenOk <;>
      simp [enableWrites]
  · by_cases hA : ((c.files.enable_file || f.enableOpenOk) && f.enableIoOk) = true
    · simp only [hA, if_pos rfl, h]
      cases hb : c.files.enable_file <;> cases ho : f.enableOpenOk <;>
        simp [enableWrites]
    · simp only [Bool.not_eq_true] at hA
      simp only [hA]
      cases hb : c.files.enable_file <;> cases ho : f.enableOpenOk <;>
        simp [enableWrites]

/-- After any successful `set_pwm_mode m` (with m a value that reads back as
itself), the enable handle is cached, the enable I/O works, the file reads
back as m, and at most one enable write was performed. -/
theorem set_pwm_mode_post (c : FanController) (f : Fs) (m : Nat)
    (hm' : parse_u8 (toString m) = some m)
    (h : (c.set_pwm_mode f m).1 = true) :
    (c.set_pwm_mode f m).2.1.files.enable_file = true ∧
    (c.set_pwm_mode f m).2.2.1.enableIoOk = true ∧
    parse_u8 (c.set_pwm_mode f m).2.2.1.enableContent = some m ∧
    (enableWrites (c.set_pwm_mode f m).2.2.2).length ≤ 1 := by
  by_cases hA : ((c.files.enable_file || f.enableOpenOk) && f.enableIoOk) = true
  · obtain ⟨h1, h2⟩ := Bool.and_eq_true_iff.mp hA
    cases hp : parse_u8 f.enableContent with
    | none =>
      rw [(set_pwm_mode_fail c f m (Or.inr hp)).1] at h
      exact Bool.noConfusion h
    | some v =>
      by_cases hv : v = m
      · subst hv
        rw [set_pwm_mode_same c f v h1 h2 hp]
        cases hb : c.files.enable_file <;> simp [h2, hp, enableWrites]
      · rw [set_pwm_mode_diff c f m v h1 h2 hp hv]
        cases hb : c.files.enable_file <;> simp [h2, hm', enableWrites]
  · rw [(set_pwm_mode_fail c f m (Or.inl (by simpa using hA))).1] at h
    exact Bool.noConfusion h

/-- C5 amended: `set_pwm_mode` is idempotent with AT MOST one underlying
write: for a device mode encoding m (1 or 2), if the first of two
consecutive `set_pwm_mode(m)` calls succeeds, it performed ZERO enable-file
writes when the device already read back mode m, and EXACTLY ONE (of the
value m) when it did not; the second call reads the mode back as m,
performs no write, and still returns success. -/
theorem set_pwm_mode_idempotent (ctrl : FanController) (fs : Fs) (m : Nat)
    (hm : m = 1 ∨ m = 2)
    (h1 : (ctrl.set_pwm_mode fs m).1 = true) :
    (parse_u8 fs.enableContent = some m →
      enableWrites (ctrl.set_pwm_mode fs m).2.2.2 = []) ∧
    (parse_u8 fs.enableContent ≠ some m →
      enableWrites (ctrl.set_pwm_mode fs m).2.2.2 = [m]) ∧
    ((ctrl.set_pwm_mode fs m).2.1.set_pwm_mode (ctrl.set_pwm_mode fs m).2.2.1 m).1 = true ∧
    enableWrites ((ctrl.set_pwm_mode fs m).2.1.set_pwm_mode
      (ctrl.set_pwm_mode fs m).2.2.1 m).2.2.2 = [] := by
  have hm' : parse_u8 (toString m) = some m := by
    rcases hm with h | h <;> subst h <;> decide
  obtain ⟨he, hio, hparse, _⟩ := set_pwm_mode_post ctrl fs m hm' h1
  have e2 := set_pwm_mode_same ((ctrl.set_pwm_mode fs m).2.1)
    ((ctrl.set_pwm_mode fs m).2.2.1) m (by simp [he]) hio hparse
  have hcount : (parse_u8 fs.enableContent = some m →
        enableWrites (ctrl.set_pwm_mode fs m).2.2.2 = []) ∧
      (parse_u8 fs.enableContent ≠ some m →
        enableWrites (ctrl.set_pwm_mode fs m).2.2.2 = [m]) := by
    by_cases hA : ((ctrl.files.enable_file || fs.enableOpenOk) && fs.enableIoOk) = true
    · obtain ⟨hOr, hIO⟩ := Bool.and_eq_true_iff.mp hA
      cases hp : parse_u8 fs.enableContent with
      | none =>
        rw [(set_pwm_mode_fail ctrl fs m (Or.inr hp)).1] at h1
        exact Bool.noConfusion h1
      | some v =>
        by_cases hv : v = m
        · subst hv
          rw [set_pwm_mode_same ctrl fs v hOr hIO hp]
          refine ⟨fun _ => ?_, fun hne => absurd rfl hne⟩
          cases hb : ctrl.files.enable_file <;> simp [hb, enableWrites]
        · rw [set_pwm_mode_diff ctrl fs m v hOr hIO hp hv]
          refine ⟨fun hsome => absurd (Option.some.inj hsome) hv, fun _ => ?_⟩
          cases hb : ctrl.files.enable_file <;> simp [hb, enableWrites]
    · rw [(set_pwm_mode_fail ctrl fs m (Or.inl (by simpa using hA))).1] at h1
      exact Bool.noConfusion h1
  refine ⟨hcount.1, hcount.2, ?_, ?_⟩
  · rw [e2]
  · rw [e2]
    simp [he, enableWrites]

/-- C5 counterexample: with the device already in mode 1, two consecutive
`set_pwm_mode(1)` calls perform ZERO underlying enable-file writes (both
succeed), refuting "performs exactly one underlying write". -/
theorem set_pwm_mode_twice_zero_writes :
    ((initController "p").set_pwm_mode fsManual 1).1 = true ∧
    (((initController "p").set_pwm_mode fsManual 1).2.1.set_pwm_mode
        ((initController "p").set_pwm_mode fsManual 1).2.2.1 1).1 = true ∧
    enableWrites (((initController "p").set_pwm_mode fsManual 1).2.2.2 ++
      (((initController "p").set_pwm_mode fsManual 1).2.1.set_pwm_mode
        ((initController "p").set_pwm_mode fsManual 1).2.2.1 1).2.2.2) = [] := by
  decide

/-- Witness for `set_pwm_mode_idempotent` on a fresh controller against a
device found in automatic mode ("2") with target mode 1, exercising the
mode-differs branch: exactly one enable write of 1, then a no-op success. -/
theorem set_pwm_mode_idempotent_witness :
    parse_u8 fsAutomatic.enableContent ≠ some 1 ∧
    enableWrites ((initController "p").set_pwm_mode fsAutomatic 1).2.2.2 = [1] ∧
    (((initController "p").set_pwm_mode fsAutomatic 1).2.1.set_pwm_mode
      ((initController "p").set_pwm_mode fsAutomatic 1).2.2.1 1).1 = true ∧
    enableWrites (((initController "p").set_pwm_mode fsAutomatic 1).2.1.set_pwm_mode
      ((initController "p").set_pwm_mode fsAutomatic 1).2.2.1 1).2.2.2 = [] :=
  ⟨by decide,
   (set_pwm_mode_idempotent (initController "p") fsAutomatic 1 (Or.inl rfl)
     (by decide)).2.1 (by decide),
   (set_pwm_mode_idempotent (initController "p") fsAutomatic 1 (Or.inl rfl)
     (by decide)).2.2.1,
   (set_pwm_mode_idempotent (initController "p") fsAutomatic 1 (Or.inl rfl)
     (by decide)).2.2.2⟩

/-- `enableWrites` distributes over trace concatenation. -/
theorem enableWrites_append (a b : List Event) :
    enableWrites (a ++ b) = enableWrites a ++ enableWrites b := by
  simp [enableWrites]

/-- A tick never touches the enable file: no enable write, enable content
and all environment success flags unchanged, enable handle cache unchanged. -/
theorem update_preserves_enable (c : FanController) (f : Fs) (r : Option Nat) :
    enableWrites (c.update f r).2.2 = [] ∧
    (c.update f r).2.1.enableContent = f.enableContent ∧
    (c.update f r).2.1.enableOpenOk = f.enableOpenOk ∧
    (c.update f r).2.1.enableIoOk = f.enableIoOk ∧
    (c.update f r).2.1.pwmOpenOk = f.pwmOpenOk ∧
    (c.update f r).2.1.pwmIoOk = f.pwmIoOk ∧
    (c.update f r).1.files.enable_file = c.files.enable_file := by
  rw [update_eq]
  cases r with
  | none =>
    by_cases hs : c.last_speed ≠ 77 <;>
      cases hb : c.files.pwm_file <;> cases hp : f.pwmOpenOk <;>
        cases hio : f.pwmIoOk <;>
          simp [hs, hb, hp, hio, enableWrites]
  | some temp =>
    by_cases hc : temp ≠ c.last_temp ∨ calculate_fan_speed temp ≠ c.last_speed <;>
      cases hb : c.files.pwm_file <;> cases hp : f.pwmOpenOk <;>
        cases hio : f.pwmIoOk <;>
          simp [hc, hb, hp, hio, enableWrites]

/-- The whole poll loop never touches the enable file. -/
theorem runTicks_preserves_enable (rs : List (Option Nat)) (c : FanController) (f : Fs) :
    enableWrites (runTicks c f rs).2.2 = [] ∧
    (runTicks c f rs).2.1.enableContent = f.enableContent ∧
    (runTicks c f rs).2.1.enableOpenOk = f.enableOpenOk ∧
    (runTicks c f rs).2.1.enableIoOk = f.enableIoOk ∧
    (runTicks c f rs).2.1.pwmOpenOk = f.pwmOpenOk ∧
    (runTicks c f rs).2.1.pwmIoOk = f.pwmIoOk ∧
    (runTicks c f rs).1.files.enable_file = c.files.enable_file := by
  induction rs generalizing c f with
  | nil => simp [runTicks, enableWrites]
  | cons r rs ih =>
    obtain ⟨e1, e2, e3, e4, e5, e6, e7⟩ := update_preserves_enable c f r
    obtain ⟨i1, i2, i3, i4, i5, i6, i7⟩ := ih (c.update f r).1 (c.update f r).2.1
    simp only [runTicks]
    refine ⟨?_, ?_, ?_, ?_, ?_, ?_, ?_⟩
    · simp [enableWrites] at e1 i1 ⊢
      exact ⟨e1, i1⟩
    · exact i2.trans e2
    · exact i3.trans e3
    · exact i4.trans e4
    · exact i5.trans e5
    · exact i6.trans e6
    · exact i7.trans e7

/-- `cleanup` against a working device in manual mode performs exactly the
two writes duty 77 then enable 2, in that order, and leaves the device
reading back automatic mode. -/
theorem cleanup_good (c : FanController) (f : Fs)
    (hpo : (c.files.pwm_file || f.pwmOpenOk) = true) (hpi : f.pwmIoOk = true)
    (heo : (c.files.enable_file || f.enableOpenOk) = true) (hei : f.enableIoOk = true)
    (hmode : parse_u8 f.enableContent = some 1) :
    deviceWrites (c.cleanup f).2.2 = [Event.writePwm 77, Event.writeEnable 2] ∧
    enableWrites (c.cleanup f).2.2 = [2] ∧
    parse_u8 (c.cleanup f).2.1.enableContent = some 2 := by
  have e1 : c.set_fan_speed f 77 =
      (true, { c with files := { c.files with pwm_file := true } },
       { f with pwmContent := toString 77 },
       (if c.files.pwm_file then [] else [Event.openPwm]) ++ [Event.writePwm 77]) := by
    rw [FanController.set_fan_speed, write_pwm_eq]
    simp [hpo, hpi]
  have e2 := set_pwm_mode_diff
    ({ c with files := { c.files with pwm_file := true } })
    ({ f with pwmContent := toString 77 }) 2 1
    (by simpa using heo) (by simpa using hei) (by simpa using hmode) (by decide)
  unfold FanController.cleanup
  rw [e1]
  simp only []
  rw [e2]
  cases hb : c.files.pwm_file <;> cases hbe : c.files.enable_file <;>
    simp [hb, hbe, deviceWrites, enableWrites] <;> decide

/-- C2: between construction and cleanup the device mode stays manual — a
tick never writes the enable file and never changes its contents; and on
any loop exit the single `Drop`-driven cleanup writes duty 77 and then
automatic mode (enable value 2), the run's only enable write. -/
theorem update_keeps_manual_cleanup_restores_once
    (ctrl : FanController) (fs : Fs) (readings : List (Option Nat))
    (hpo : fs.pwmOpenOk = true) (hpi : fs.pwmIoOk = true)
    (heo : fs.enableOpenOk = true) (hei : fs.enableIoOk = true)
    (hmode : parse_u8 fs.enableContent = some 1) :
    (∀ c f r, enableWrites (FanController.update c f r).2.2 = [] ∧
              (FanController.update c f r).2.1.enableContent = f.enableContent) ∧
    deviceWrites ((runTicks ctrl fs readings).1.cleanup
        (runTicks ctrl fs readings).2.1).2.2 =
      [Event.writePwm 77, Event.writeEnable 2] ∧
    enableWrites (runLoop ctrl fs readings).2.2 = [2] := by
  obtain ⟨t1, t2, t3, t4, t5, t6, t7⟩ := runTicks_preserves_enable readings ctrl fs
  have hc := cleanup_good (runTicks ctrl fs readings).1 (runTicks ctrl fs readings).2.1
    (by simp [t5, hpo]) (by simp [t6, hpi]) (by simp [t3, heo]) (by simp [t4, hei])
    (by rw [t2]; exact hmode)
  refine ⟨fun c f r => ⟨(update_preserves_enable c f r).1,
    (update_preserves_enable c f r).2.1⟩, hc.1, ?_⟩
  simp only [runLoop]
  rw [enableWrites_append, t1, hc.2.1]
  rfl

/-- Witness for `update_keeps_manual_cleanup_restores_once` on a fresh
controller against `fsManual` with readings [30°C, sensor failure]. -/
theorem update_keeps_manual_cleanup_restores_once_witness :
    deviceWrites ((runTicks (initController "p") fsManual [some 30, none]).1.cleanup
        (runTicks (initController "p") fsManual [some 30, none]).2.1).2.2 =
      [Event.writePwm 77, Event.writeEnable 2] ∧
    enableWrites (runLoop (initController "p") fsManual [some 30, none]).2.2 = [2] :=
  ⟨(update_keeps_manual_cleanup_restores_once (initController "p") fsManual
      [some 30, none] rfl rfl rfl rfl (by decide)).2.1,
   (update_keeps_manual_cleanup_restores_once (initController "p") fsManual
      [some 30, none] rfl rfl rfl rfl (by decide)).2.2⟩

/-- C6: write suppression — a tick whose reading reproduces the last-applied
(temperature, duty) pair performs no device action at all; and the
temperature sequence [20, 30, 30, 61] from last-applied pair (0,0) performs
exactly the three duty writes 77, 102, 255. -/
theorem update_write_suppression (c : FanController) (f : Fs) (temp : Nat)
    (h1 : c.last_temp = temp) (h2 : c.last_speed = calculate_fan_speed temp) :
    c.update f (some temp) = (c, f, []) ∧
    pwmWrites (runTicks (initController "p") fsManual
      [some 20, some 30, some 30, some 61]).2.2 = [77, 102, 255] := by
  constructor
  · rw [update_eq]
    simp [h1, h2]
  · decide

/-- Witness for `update_write_suppression` at the repeated reading 30. -/
theorem update_write_suppression_witness :
    FanController.update
        { initController "p" with last_temp := 30, last_speed := 102 }
        fsManual (some 30) =
      ({ initController "p" with last_temp := 30, last_speed := 102 }, fsManual, []) ∧
    pwmWrites (runTicks (initController "p") fsManual
      [some 20, some 30, some 30, some 61]).2.2 = [77, 102, 255] :=
  update_write_suppression
    { initController "p" with last_temp := 30, last_speed := 102 }
    fsManual 30 rfl (by decide)

/-- C7: a failed duty write (no pwm handle obtainable or broken pwm I/O)
leaves the last-applied pair and the file system untouched, with no
completed write, so the next tick recomputes the same difference and
retries the same target. -/
theorem update_failed_write_keeps_pair (c : FanController) (f : Fs) (temp : Nat)
    (hfail : ((c.files.pwm_file || f.pwmOpenOk) && f.pwmIoOk) = false) :
    (c.update f (some temp)).1.last_temp = c.last_temp ∧
    (c.update f (some temp)).1.last_speed = c.last_speed ∧
    (c.update f (some temp)).2.1 = f ∧
    pwmWrites (c.update f (some temp)).2.2 = [] := by
  rw [update_eq]
  by_cases hc : temp ≠ c.last_temp ∨ calculate_fan_speed temp ≠ c.last_speed
  · cases hb : c.files.pwm_file <;> cases hp : f.pwmOpenOk <;>
      cases hio : f.pwmIoOk <;> simp_all [pwmWrites]
  · simp [hc, pwmWrites]

/-- Witness for `update_failed_write_keeps_pair` against an environment
where the pwm file cannot be opened. -/
theorem update_failed_write_keeps_pair_witness :
    (FanController.update (initController "p") fsOpenFails (some 30)).1.last_temp =
      (initController "p").last_temp ∧
    (FanController.update (initController "p") fsOpenFails (some 30)).1.last_speed =
      (initController "p").last_speed ∧
    (FanController.update (initController "p") fsOpenFails (some 30)).2.1 = fsOpenFails ∧
    pwmWrites (FanController.update (initController "p") fsOpenFails (some 30)).2.2 = [] :=
  update_failed_write_keeps_pair (initController "p") fsOpenFails 30 (by decide)

/-- C8: sensor-failure fallback — a tick without a reading never changes the
last-applied temperature, in every environment; when the last-applied duty
is not 77 and the fallback write succeeds, the tick writes exactly duty 77
and commits duty 77 alone; when the fallback write fails, the last-applied
duty is left unchanged with no completed write; when the last-applied duty
is already 77 the tick does nothing at all; and three consecutive
sensor-failure ticks from last-applied duty 200 write duty 77 exactly once. -/
theorem update_sensor_fallback (c : FanController) (f : Fs) :
    (c.update f none).1.last_temp = c.last_temp ∧
    (c.last_speed ≠ 77 →
      ((c.files.pwm_file || f.pwmOpenOk) && f.pwmIoOk) = true →
      pwmWrites (c.update f none).2.2 = [77] ∧
      (c.update f none).1.last_speed = 77) ∧
    (c.last_speed ≠ 77 →
      ((c.files.pwm_file || f.pwmOpenOk) && f.pwmIoOk) = false →
      (c.update f none).1.last_speed = c.last_speed ∧
      pwmWrites (c.update f none).2.2 = [] ∧
      (c.update f none).2.1 = f) ∧
    (c.last_speed = 77 → c.update f none = (c, f, [])) ∧
    pwmWrites (runTicks { initController "p" with last_speed := 200 } fsManual
      [none, none, none]).2.2 = [77] := by
  refine ⟨?_, ?_, ?_, ?_, by decide⟩
  · rw [update_eq]
    by_cases hs : c.last_speed ≠ 77 <;> cases hb : c.files.pwm_file <;>
      cases hp : f.pwmOpenOk <;> cases hio : f.pwmIoOk <;>
        simp [hs, hb, hp, hio]
  · intro hs hok
    rw [update_eq]
    cases hb : c.files.pwm_file <;> cases hp : f.pwmOpenOk <;>
      cases hio : f.pwmIoOk <;> simp_all [pwmWrites]
  · intro hs hfail
    rw [update_eq]
    cases hb : c.files.pwm_file <;> cases hp : f.pwmOpenOk <;>
      cases hio : f.pwmIoOk <;> simp_all [pwmWrites]
  · intro hs
    rw [update_eq]
    simp [hs]

/-- Witness for `update_sensor_fallback` from last-applied duty 200:
successful fallback against `fsManual` (one write of 77), failed fallback
against `fsOpenFails` (duty commit suppressed), and the three-tick run. -/
theorem update_sensor_fallback_witness :
    pwmWrites (FanController.update { initController "p" with last_speed := 200 }
      fsManual none).2.2 = [77] ∧
    (FanController.update { initController "p" with last_speed := 200 }
      fsOpenFails none).1.last_speed =
      ({ initController "p" with last_speed := 200 } : FanController).last_speed ∧
    pwmWrites (runTicks { initController "p" with last_speed := 200 } fsManual
      [none, none, none]).2.2 = [77] :=
  ⟨((update_sensor_fallback { initController "p" with last_speed := 200 }
      fsManual).2.1 (by decide) (by decide)).1,
   ((update_sensor_fallback { initController "p" with last_speed := 200 }
      fsOpenFails).2.2.1 (by decide) (by decide)).1,
   (update_sensor_fallback { initController "p" with last_speed := 200 }
      fsManual).2.2.2.2⟩

/-- `set_pwm_mode` never changes the stored enable path. -/
theorem set_pwm_mode_path (c : FanController) (f : Fs) (m : Nat) :
    (c.set_pwm_mode f m).2.1.enable_path = c.enable_path := by
  rw [set_pwm_mode_eq]
  split
  · simp
  · split <;> simp

/-- C9: construction yields no controller exactly when the derived enable
path (pwm path + "_enable") does not exist or confirming manual mode
(`set_pwm_mode(1)`) fails; a produced controller carries the derived enable
path and the device then reads back manual mode (1). -/
theorem new_none_iff (pwm_path : String) (fs : Fs) :
    ((FanController.new pwm_path fs).1 = none ↔
      fs.enableExists = false ∨
        ((initController pwm_path).set_pwm_mode fs 1).1 = false) ∧
    ∀ c, (FanController.new pwm_path fs).1 = some c →
      c.enable_path = make_enable_path pwm_path ∧
      parse_u8 (FanController.new pwm_path fs).2.1.enableContent = some 1 := by
  constructor
  · by_cases he : fs.enableExists = true
    · rcases hr : (initController pwm_path).set_pwm_mode fs 1 with ⟨b, c', f', ev⟩
      cases b <;> simp [FanController.new, he, hr]
    · have he' : fs.enableExists = false := by simpa using he
      simp [FanController.new, he']
  · intro c hc
    by_cases he : fs.enableExists = true
    · rcases hr : (initController pwm_path).set_pwm_mode fs 1 with ⟨b, c', f', ev⟩
      cases b with
      | false => simp [FanController.new, he, hr] at hc
      | true =>
        have hsucc : ((initController pwm_path).set_pwm_mode fs 1).1 = true := by
          rw [hr]
        have hpost := set_pwm_mode_post (initController pwm_path) fs 1 (by decide) hsucc
        have hpath := set_pwm_mode_path (initController pwm_path) fs 1
        simp [FanController.new, he, hr] at hc ⊢
        rw [hr] at hpath hpost
        constructor
        · rw [← hc, hpath]
          rfl
        · exact hpost.2.2.1
    · have he' : fs.enableExists = false := by simpa using he
      simp [FanController.new, he'] at hc

/-- Witness for `new_none_iff`: successful construction against `fsManual`. -/
theorem new_none_iff_witness :
    (⟨"p", "p_enable", 0, 0, ⟨false, true⟩⟩ : FanController).enable_path =
      make_enable_path "p" ∧
    parse_u8 (FanController.new "p" fsManual).2.1.enableContent = some 1 :=
  (new_none_iff "p" fsManual).2 ⟨"p", "p_enable", 0, 0, ⟨false, true⟩⟩ (by decide)

/-- C3 counterexample: the configured interval 1/16 s (= 0.0625, exactly
representable in f64, so the rational model matches the float computation)
yields a sleep of 62 500 000 ns, strictly below 0.1 s — no 0.1 s floor is
enforced anywhere in `main`. -/
theorem sleep_nanos_below_floor :
    (0 : ℚ) < 1/16 ∧ sleep_nanos (1/16) = 62500000 ∧ 62500000 < 100000000 := by
  refine ⟨by norm_num, ?_, by norm_num⟩
  have h : ((1 : ℚ)/16) * 1000000000 = ((62500000 : ℤ) : ℚ) := by norm_num
  unfold sleep_nanos
  rw [h, Int.floor_intCast]
  rfl

/-- C3 amended: the sleep duration is exactly the configured interval times
10⁹ ns (floored); it drops below 0.1 s precisely when the configured
interval does — there is no enforced floor. -/
theorem sleep_nanos_no_floor (q : ℚ) (hq : 0 ≤ q) :
    sleep_nanos q < 100000000 ↔ q < 1/10 := by
  unfold sleep_nanos
  have h0 : (0 : ℤ) ≤ ⌊q * 1000000000⌋ := Int.floor_nonneg.mpr (by positivity)
  constructor
  · intro h
    have h2 : ⌊q * 1000000000⌋ < 100000000 := by omega
    have h3 : q * 1000000000 < ((100000000 : ℤ) : ℚ) := Int.floor_lt.mp h2
    push_cast at h3
    linarith
  · intro h
    have h3 : q * 1000000000 < ((100000000 : ℤ) : ℚ) := by push_cast; linarith
    have h2 := Int.floor_lt.mpr h3
    omega

/-- Witness for `sleep_nanos_no_floor` at the default interval 2 s. -/
theorem sleep_nanos_no_floor_witness :
    (0 : ℚ) ≤ 2 ∧ (sleep_nanos 2 < 100000000 ↔ (2 : ℚ) < 1/10) :=
  ⟨by norm_num, sleep_nanos_no_floor 2 (by norm_num)⟩
